import Mathlib

/-!
Verification of `src/plugins/hookify/hooks/userpromptsubmit.py`, the
UserPromptSubmit hook executor of the hookify plugin.

The script is a thin adapter: it resolves a plugin root directory,
imports two external collaborator modules (`core.config_loader.load_rules`
and `core.rule_engine.RuleEngine`), reads one JSON document from standard
input, delegates to the collaborators, prints one JSON document to
standard output, and always exits with status 0.

Shallow embedding conventions:
  - Python exceptions are modeled as values of `Exc` carrying the text
    that `str(e)` would produce; fallible steps return `Except Exc _`.
    The embedding is a total function, so the fact that no exception
    escapes the process is reflected by `process` always producing a
    `RunResult`.
  - The external collaborators (and the standard-library JSON reader
    `json.load`, which is likewise outside the repository source) are
    oracle functions grouped in `Collaborators`; `main` is translated
    from the source, parameterized by them.  The rule-set type is opaque,
    hence a type parameter `R`, and the evaluator models the combined
    `RuleEngine()` construction plus `evaluate_rules` method call at the
    boundary the spec names (`RuleEngine().evaluate_rules(rules, input)`).
  - Standard output is modeled at the level of the single JSON document
    the script prints (`print(json.dumps(...))` emits the serialized
    document plus a newline; the claims speak about the document).
    `dumps` re-implements `json.dumps` with its default settings on the
    modeled JSON values (objects, arrays, strings, integers, booleans,
    null; JSON floats do not occur in any claim and are omitted).
  - Module import resolution depends on the computed plugin root (the
    script inserts the root into `sys.path` before importing), so it is
    modeled as an oracle `importOf : String → ImportResult R` applied to
    the plugin root.  `ImportResult.importError` is the `ImportError`
    case the source catches.
-/

namespace Hookify

/-- A JSON document, as handled by the script (`json.load` / `json.dumps`).
Numbers are modeled as integers; no claim involves numeric payloads. -/
inductive Json where
  | null : Json
  | bool : Bool → Json
  | num : Int → Json
  | str : String → Json
  | arr : List Json → Json
  | obj : List (String × Json) → Json

/-- A Python exception, reduced to the text that `str(e)` yields. -/
structure Exc where
  text : String

/-- Hex digit character (lowercase), as produced by the CPython JSON
encoder for `\uXXXX` escapes. -/
def hexDigit (n : Nat) : Char :=
  if n < 10 then Char.ofNat (48 + n) else Char.ofNat (87 + n)

/-- Four-digit lowercase hex rendering of `n % 65536`. -/
def hex4 (n : Nat) : String :=
  String.mk [hexDigit (n / 4096 % 16), hexDigit (n / 256 % 16),
             hexDigit (n / 16 % 16), hexDigit (n % 16)]

/-- Escaping of one character inside a JSON string literal, following
`json.dumps` with its default `ensure_ascii=True`: special escapes for
quote, backslash and the named control characters, `\uXXXX` (with
surrogate pairs above the BMP) for other control or non-ASCII characters,
and the character itself otherwise. -/
def escapeChar (c : Char) : String :=
  if c = '"' then "\\\""
  else if c = '\\' then "\\\\"
  else if c = '\n' then "\\n"
  else if c = '\r' then "\\r"
  else if c = '\t' then "\\t"
  else if c.toNat = 8 then "\\b"
  else if c.toNat = 12 then "\\f"
  else if c.toNat < 32 ∨ c.toNat > 126 then
    if c.toNat ≥ 65536 then
      "\\u" ++ hex4 (55296 + (c.toNat - 65536) / 1024) ++
      "\\u" ++ hex4 (56320 + (c.toNat - 65536) % 1024)
    else "\\u" ++ hex4 c.toNat
  else String.mk [c]

/-- A JSON string literal as `json.dumps` renders it. -/
def quoteStr (s : String) : String :=
  "\"" ++ String.join (s.data.map escapeChar) ++ "\""

mutual

/-- `json.dumps` with default arguments (separators `", "` and `": "`,
`ensure_ascii=True`), on the modeled JSON values. -/
def dumps : Json → String
  | Json.null => "null"
  | Json.bool true => "true"
  | Json.bool false => "false"
  | Json.num i => toString i
  | Json.str s => quoteStr s
  | Json.arr xs => "[" ++ dumpsArr xs ++ "]"
  | Json.obj kvs => "\x7b" ++ dumpsMembers kvs ++ "\x7d"

/-- Comma-separated rendering of array elements. -/
def dumpsArr : List Json → String
  | [] => ""
  | [x] => dumps x
  | x :: y :: xs => dumps x ++ ", " ++ dumpsArr (y :: xs)

/-- Comma-separated rendering of object members. -/
def dumpsMembers : List (String × Json) → String
  | [] => ""
  | [(k, v)] => quoteStr k ++ ": " ++ dumps v
  | (k, v) :: m :: ms => quoteStr k ++ ": " ++ dumps v ++ ", " ++ dumpsMembers (m :: ms)

end

/-- `os.path.dirname` for POSIX paths: everything up to the last slash,
with trailing slashes stripped unless the head consists of slashes only. -/
def dirname (p : String) : String :=
  let rcs := p.data.reverse
  let headRev := rcs.dropWhile (fun c => !(c == '/'))
  let head :=
    if headRev.isEmpty then headRev
    else if headRev.all (fun c => c == '/') then headRev
    else headRev.dropWhile (fun c => c == '/')
  String.mk head.reverse

/-- The module-level `PLUGIN_ROOT` computation:
`os.environ.get('CLAUDE_PLUGIN_ROOT')`, falling back (on `None` or the
empty string, both falsy under `if not PLUGIN_ROOT`) to
`os.path.dirname(os.path.dirname(os.path.abspath(__file__)))`.
`scriptAbsPath` is the absolute path of the script itself. -/
def pluginRoot (env : Option String) (scriptAbsPath : String) : String :=
  match env with
  | none => dirname (dirname scriptAbsPath)
  | some v => if v.isEmpty then dirname (dirname scriptAbsPath) else v

/-- The external collaborator functions, plus the standard-library JSON
reader, as oracles.  `R` is the opaque rule-set type. -/
structure Collaborators (R : Type) where
  parse : String → Except Exc Json
  load_rules : String → Except Exc R
  evaluate_rules : R → Json → Except Exc Json

/-- Outcome of `from core.config_loader import load_rules` /
`from core.rule_engine import RuleEngine` once the plugin root has been
put on `sys.path`: either the collaborators become available, or an
`ImportError` is raised (the case the source catches). -/
inductive ImportResult (R : Type) where
  | ok : Collaborators R → ImportResult R
  | importError : ImportResult R

/-- One observable call to an external collaborator, recorded so that the
delegation order can be stated. -/
inductive CallEvent (R : Type) where
  | loadRules : String → CallEvent R
  | evaluate : R → Json → CallEvent R

/-- Whether a recorded call is a call to the loader. -/
def isLoadCall {R : Type} : CallEvent R → Bool
  | CallEvent.loadRules _ => true
  | CallEvent.evaluate _ _ => false

/-- The observable result of one process run: the JSON document written
to standard output, the exit status, and the collaborator calls made. -/
structure RunResult (R : Type) where
  output : Json
  exitCode : Nat
  trace : List (CallEvent R)

/-- The error document built in the `except Exception` branch:
`{"systemMessage": f"Hookify error: {str(e)}"}`. -/
def errorOutput (e : Exc) : Json :=
  Json.obj [("systemMessage", Json.str ("Hookify error: " ++ e.text))]

/-- `main()`: read and parse stdin, `load_rules(event='prompt')`,
`RuleEngine().evaluate_rules(rules, input_data)`, print the result; any
exception in those steps is caught and converted to `errorOutput`; the
`finally` block performs `sys.exit(0)` on every path. -/
def main {R : Type} (C : Collaborators R) (stdin : String) : RunResult R :=
  match C.parse stdin with
  | Except.error e => ⟨errorOutput e, 0, []⟩
  | Except.ok input_data =>
    match C.load_rules "prompt" with
    | Except.error e => ⟨errorOutput e, 0, [CallEvent.loadRules "prompt"]⟩
    | Except.ok rules =>
      match C.evaluate_rules rules input_data with
      | Except.error e =>
        ⟨errorOutput e, 0,
         [CallEvent.loadRules "prompt", CallEvent.evaluate rules input_data]⟩
      | Except.ok result =>
        ⟨result, 0,
         [CallEvent.loadRules "prompt", CallEvent.evaluate rules input_data]⟩

/-- The whole script execution: compute `PLUGIN_ROOT`, attempt the
imports with that root on `sys.path` (`importOf` applied to the root);
on `ImportError` print `{}` and `sys.exit(0)` at module level, otherwise
run `main()`. -/
def process {R : Type} (env : Option String) (scriptAbsPath : String)
    (importOf : String → ImportResult R) (stdin : String) : RunResult R :=
  match importOf (pluginRoot env scriptAbsPath) with
  | ImportResult.importError => ⟨Json.obj [], 0, []⟩
  | ImportResult.ok C => main C stdin

/-! Concrete collaborator fixtures, used to instantiate the theorems with
hypotheses at explicit inputs. -/

/-- Import succeeds with the given collaborators, whatever the root. -/
def importOk {R : Type} (C : Collaborators R) : String → ImportResult R :=
  fun _ => ImportResult.ok C

/-- Import raises `ImportError`, whatever the root. -/
def importFail {R : Type} : String → ImportResult R :=
  fun _ => ImportResult.importError

/-- A run where every step succeeds. -/
def okCollab : Collaborators Unit where
  parse := fun _ => Except.ok (Json.obj [("prompt", Json.str "hello")])
  load_rules := fun _ => Except.ok ()
  evaluate_rules := fun _ _ => Except.ok (Json.obj [])

/-- A run where `json.load` raises a decode error. -/
def parseFailCollab : Collaborators Unit where
  parse := fun _ => Except.error ⟨"Expecting value: line 1 column 1 (char 0)"⟩
  load_rules := fun _ => Except.ok ()
  evaluate_rules := fun _ _ => Except.ok (Json.obj [])

/-- A run where `load_rules` raises. -/
def loadFailCollab : Collaborators Unit where
  parse := fun _ => Except.ok (Json.obj [])
  load_rules := fun _ => Except.error ⟨"rules file not found"⟩
  evaluate_rules := fun _ _ => Except.ok (Json.obj [])

/-- A run where `evaluate_rules` raises. -/
def evalFailCollab : Collaborators Unit where
  parse := fun _ => Except.ok (Json.obj [])
  load_rules := fun _ => Except.ok ()
  evaluate_rules := fun _ _ => Except.error ⟨"bad rule"⟩

/-- The absolute script path used in concrete instantiations. -/
def demoPath : String := "/repo/plugins/hookify/hooks/userpromptsubmit.py"

/-! Helper lemmas about the error message text. -/

theorem hookify_tag_length : ("Hookify error: " : String).length = 15 := rfl

theorem hookify_msg_ne_empty (t : String) : "Hookify error: " ++ t ≠ "" := by
  intro h
  have hl := congrArg String.length h
  rw [String.length_append, hookify_tag_length, String.length_empty] at hl
  omega

theorem hookify_msg_ne_text (t : String) : "Hookify error: " ++ t ≠ t := by
  intro h
  have hl := congrArg String.length h
  rw [String.length_append, hookify_tag_length] at hl
  omega

/-- C1: On every execution — whatever the environment, the script path,
the resolution of the imports, the content of standard input, and the
outcome (success or exception) of parsing, rule loading and rule
evaluation — the process terminates with exit status 0.  `process` is a
total function into `RunResult`, so in the embedding no exception crosses
the process boundary on any of these paths. -/
theorem exit_code_always_zero {R : Type} (env : Option String) (p : String)
    (importOf : String → ImportResult R) (stdin : String) :
    (process env p importOf stdin).exitCode = 0 := by
  cases hI : importOf (pluginRoot env p) with
  | importError => simp [process, hI]
  | ok C =>
    cases hP : C.parse stdin with
    | error e => simp [process, main, hI, hP]
    | ok input_data =>
      cases hL : C.load_rules "prompt" with
      | error e => simp [process, main, hI, hP, hL]
      | ok rules =>
        cases hE : C.evaluate_rules rules input_data with
        | error e => simp [process, main, hI, hP, hL, hE]
        | ok result => simp [process, main, hI, hP, hL, hE]

/-- C2: When standard input parses as JSON, the modules import
successfully, and the evaluation pipeline returns a (JSON-serializable,
hence modeled as `Json`) result, the document written to standard output
is exactly that result — equal as a document and hence in serialized
form — and the exit code is 0. -/
theorem success_output_passthrough {R : Type} (env : Option String) (p : String)
    (importOf : String → ImportResult R) (stdin : String) (C : Collaborators R)
    (input_data : Json) (rules : R) (result : Json)
    (hI : importOf (pluginRoot env p) = ImportResult.ok C)
    (hP : C.parse stdin = Except.ok input_data)
    (hL : C.load_rules "prompt" = Except.ok rules)
    (hE : C.evaluate_rules rules input_data = Except.ok result) :
    (process env p importOf stdin).output = result ∧
    dumps (process env p importOf stdin).output = dumps result ∧
    (process env p importOf stdin).exitCode = 0 := by
  simp [process, main, hI, hP, hL, hE]

/-- Witness for C2 at a concrete instantiation: every hypothesis holds
for `okCollab` on input `{"prompt": "hello"}`, and the conclusion follows
by the theorem. -/
theorem success_output_passthrough_witness :
    (importOk okCollab) (pluginRoot none demoPath) = ImportResult.ok okCollab ∧
    okCollab.parse "{}"
      = Except.ok (Json.obj [("prompt", Json.str "hello")]) ∧
    okCollab.load_rules "prompt" = Except.ok () ∧
    okCollab.evaluate_rules () (Json.obj [("prompt", Json.str "hello")])
      = Except.ok (Json.obj []) ∧
    ((process none demoPath (importOk okCollab) "{}").output
       = Json.obj [] ∧
     dumps (process none demoPath (importOk okCollab) "{}").output
       = dumps (Json.obj []) ∧
     (process none demoPath (importOk okCollab) "{}").exitCode = 0) :=
  ⟨rfl, rfl, rfl, rfl,
   success_output_passthrough none demoPath (importOk okCollab)
     "{}" okCollab (Json.obj [("prompt", Json.str "hello")])
     () (Json.obj []) rfl rfl rfl rfl⟩

/-- C3: If the imports fail with `ImportError`, the process writes
exactly the JSON document `{}` (serialized `"{}"`) to standard output and
exits with status 0, regardless of standard input. -/
theorem import_failure_emits_empty {R : Type} (env : Option String) (p : String)
    (importOf : String → ImportResult R) (stdin : String)
    (h : importOf (pluginRoot env p) = ImportResult.importError) :
    (process env p importOf stdin).output = Json.obj [] ∧
    dumps (process env p importOf stdin).output = "{}" ∧
    (process env p importOf stdin).exitCode = 0 := by
  refine ⟨?_, ?_, ?_⟩ <;> simp [process, h, dumps, dumpsMembers]

/-- Witness for C3: a failing import at a concrete input. -/
theorem import_failure_emits_empty_witness :
    (importFail : String → ImportResult Unit) (pluginRoot none demoPath)
      = ImportResult.importError ∧
    ((process none demoPath (importFail : String → ImportResult Unit) "garbage").output
       = Json.obj [] ∧
     dumps (process none demoPath (importFail : String → ImportResult Unit) "garbage").output
       = "{}" ∧
     (process none demoPath (importFail : String → ImportResult Unit) "garbage").exitCode
       = 0) :=
  ⟨rfl, import_failure_emits_empty none demoPath importFail "garbage" rfl⟩

/-- C4: If the modules import successfully but standard input is not
valid JSON (the parse raises), the process writes a JSON object carrying
the key `systemMessage` with a non-empty string value, and exits 0. -/
theorem invalid_json_emits_system_message {R : Type} (env : Option String)
    (p : String) (importOf : String → ImportResult R) (stdin : String)
    (C : Collaborators R) (e : Exc)
    (hI : importOf (pluginRoot env p) = ImportResult.ok C)
    (hP : C.parse stdin = Except.error e) :
    ∃ msg : String,
      (process env p importOf stdin).output
        = Json.obj [("systemMessage", Json.str msg)] ∧
      msg ≠ "" ∧
      (process env p importOf stdin).exitCode = 0 := by
  refine ⟨"Hookify error: " ++ e.text, ?_, hookify_msg_ne_empty e.text, ?_⟩ <;>
    simp [process, main, hI, hP, errorOutput]

/-- Witness for C4: parse failure on concrete non-JSON input. -/
theorem invalid_json_emits_system_message_witness :
    (importOk parseFailCollab) (pluginRoot none demoPath)
      = ImportResult.ok parseFailCollab ∧
    parseFailCollab.parse "not-json"
      = Except.error ⟨"Expecting value: line 1 column 1 (char 0)"⟩ ∧
    (∃ msg : String,
      (process none demoPath (importOk parseFailCollab) "not-json").output
        = Json.obj [("systemMessage", Json.str msg)] ∧
      msg ≠ "" ∧
      (process none demoPath (importOk parseFailCollab) "not-json").exitCode = 0) :=
  ⟨rfl, rfl,
   invalid_json_emits_system_message none demoPath (importOk parseFailCollab)
     "not-json" parseFailCollab ⟨"Expecting value: line 1 column 1 (char 0)"⟩
     rfl rfl⟩

/-- C5: If, after a successful import and parse, `load_rules("prompt")`
or `evaluate_rules` raises an exception `e`, the process writes a JSON
object whose key `systemMessage` contains the exception text (its value
is `"Hookify error: " ++ e.text`, so `e.text` occurs inside it), and
exits 0. -/
theorem runtime_error_emits_exception_text {R : Type} (env : Option String)
    (p : String) (importOf : String → ImportResult R) (stdin : String)
    (C : Collaborators R) (input_data : Json) (e : Exc)
    (hI : importOf (pluginRoot env p) = ImportResult.ok C)
    (hP : C.parse stdin = Except.ok input_data)
    (hRaise : C.load_rules "prompt" = Except.error e ∨
      ∃ rules : R, C.load_rules "prompt" = Except.ok rules ∧
        C.evaluate_rules rules input_data = Except.error e) :
    (process env p importOf stdin).output
      = Json.obj [("systemMessage", Json.str ("Hookify error: " ++ e.text))] ∧
    (∃ before : String,
      "Hookify error: " ++ e.text = before ++ e.text) ∧
    (process env p importOf stdin).exitCode = 0 := by
  refine ⟨?_, ⟨"Hookify error: ", rfl⟩, ?_⟩ <;>
  · rcases hRaise with hL | ⟨rules, hL, hE⟩
    · simp [process, main, hI, hP, hL, errorOutput]
    · simp [process, main, hI, hP, hL, hE, errorOutput]

/-- Witness for C5: a raising `load_rules` at a concrete input. -/
theorem runtime_error_emits_exception_text_witness :
    (importOk loadFailCollab) (pluginRoot none demoPath)
      = ImportResult.ok loadFailCollab ∧
    loadFailCollab.parse "{}" = Except.ok (Json.obj []) ∧
    loadFailCollab.load_rules "prompt" = Except.error ⟨"rules file not found"⟩ ∧
    ((process none demoPath (importOk loadFailCollab) "{}").output
       = Json.obj [("systemMessage",
           Json.str ("Hookify error: " ++ "rules file not found"))] ∧
     (∃ before : String,
       "Hookify error: " ++ "rules file not found" = before ++ "rules file not found") ∧
     (process none demoPath (importOk loadFailCollab) "{}").exitCode = 0) :=
  ⟨rfl, rfl, rfl,
   runtime_error_emits_exception_text none demoPath (importOk loadFailCollab)
     "{}" loadFailCollab (Json.obj []) ⟨"rules file not found"⟩
     rfl rfl (Or.inl rfl)⟩

/-- C6: On every run that reaches the delegation step (imports succeed
and the input parses), the loader is called exactly once, with the fixed
event identifier `"prompt"`; and whenever it returns a rule set, the
evaluator is then called with that rule set and the parsed input — the
trace is exactly the loader call followed by the evaluator call. -/
theorem delegation_calls {R : Type} (env : Option String) (p : String)
    (importOf : String → ImportResult R) (stdin : String)
    (C : Collaborators R) (input_data : Json)
    (hI : importOf (pluginRoot env p) = ImportResult.ok C)
    (hP : C.parse stdin = Except.ok input_data) :
    (process env p importOf stdin).trace.filter isLoadCall
      = [CallEvent.loadRules "prompt"] ∧
    (∀ rules : R, C.load_rules "prompt" = Except.ok rules →
      (process env p importOf stdin).trace
        = [CallEvent.loadRules "prompt", CallEvent.evaluate rules input_data]) := by
  constructor
  · cases hL : C.load_rules "prompt" with
    | error e => simp [process, main, hI, hP, hL, isLoadCall]
    | ok rules =>
      cases hE : C.evaluate_rules rules input_data with
      | error e => simp [process, main, hI, hP, hL, hE, isLoadCall]
      | ok result => simp [process, main, hI, hP, hL, hE, isLoadCall]
  · intro rules hL
    cases hE : C.evaluate_rules rules input_data with
    | error e => simp [process, main, hI, hP, hL, hE]
    | ok result => simp [process, main, hI, hP, hL, hE]

/-- Witness for C6: the successful concrete run makes exactly the loader
call with `"prompt"` followed by the evaluator call. -/
theorem delegation_calls_witness :
    (importOk okCollab) (pluginRoot none demoPath) = ImportResult.ok okCollab ∧
    okCollab.parse "{}"
      = Except.ok (Json.obj [("prompt", Json.str "hello")]) ∧
    ((process none demoPath (importOk okCollab) "{}").trace.filter
        isLoadCall = [CallEvent.loadRules "prompt"] ∧
     (∀ rules : Unit, okCollab.load_rules "prompt" = Except.ok rules →
       (process none demoPath (importOk okCollab) "{}").trace
         = [CallEvent.loadRules "prompt",
            CallEvent.evaluate rules (Json.obj [("prompt", Json.str "hello")])])) :=
  ⟨rfl, rfl,
   delegation_calls none demoPath (importOk okCollab) "{}"
     okCollab (Json.obj [("prompt", Json.str "hello")]) rfl rfl⟩

/-- C7 counterexample: the claim as stated — the plugin root equals the
value of `CLAUDE_PLUGIN_ROOT` whenever that variable is set — fails when
the variable is set to the empty string: `if not PLUGIN_ROOT` treats the
empty value as falsy, so the root falls back to the script-derived path
instead of the set value `""`. -/
theorem plugin_root_env_set_counterexample :
    pluginRoot (some "") demoPath = "/repo/plugins/hookify" ∧
    pluginRoot (some "") demoPath ≠ "" := by
  constructor <;> decide

/-- C7 (amended): the plugin root equals the value of
`CLAUDE_PLUGIN_ROOT` when that variable is set to a non-empty string;
when it is absent or set to the empty string, the plugin root is the
directory two levels up from the invoking script's absolute path. -/
theorem plugin_root_resolution (env : Option String) (p : String) :
    (∀ v : String, env = some v → v ≠ "" → pluginRoot env p = v) ∧
    ((env = none ∨ env = some "") → pluginRoot env p = dirname (dirname p)) := by
  constructor
  · rintro v rfl hv
    simp [pluginRoot, String.isEmpty_iff, hv]
  · rintro (rfl | rfl)
    · rfl
    · have h : ("" : String).isEmpty = true := rfl
      simp [pluginRoot, h]

/-- Witness for the amended C7: a non-empty override is used verbatim,
and the empty override falls back to two levels above the script. -/
theorem plugin_root_resolution_witness :
    ((some "/custom/root" : Option String) = some "/custom/root" ∧
     "/custom/root" ≠ "" ∧
     pluginRoot (some "/custom/root") demoPath = "/custom/root") ∧
    ((some "" : Option String) = none ∨ (some "" : Option String) = some "") ∧
    pluginRoot (some "") demoPath = dirname (dirname demoPath) :=
  ⟨⟨rfl, by decide,
    (plugin_root_resolution (some "/custom/root") demoPath).1 "/custom/root" rfl
      (by decide)⟩,
   Or.inr rfl,
   (plugin_root_resolution (some "") demoPath).2 (Or.inr rfl)⟩

/-- C8: Two runs with the same standard input, the same script path and
the same import resolution outcome — imports succeeding with identical
collaborators — produce identical output documents even when the
`CLAUDE_PLUGIN_ROOT` values differ: the override affects only which root
the import resolution is asked about, never the output. -/
theorem env_override_output_invariance {R : Type} (env1 env2 : Option String)
    (p : String) (stdin : String) (importOf : String → ImportResult R)
    (C : Collaborators R)
    (h1 : importOf (pluginRoot env1 p) = ImportResult.ok C)
    (h2 : importOf (pluginRoot env2 p) = ImportResult.ok C) :
    (process env1 p importOf stdin).output
      = (process env2 p importOf stdin).output := by
  simp [process, h1, h2]

/-- Witness for C8: unset versus a custom override, same collaborators,
same output document. -/
theorem env_override_output_invariance_witness :
    (importOk okCollab) (pluginRoot none demoPath) = ImportResult.ok okCollab ∧
    (importOk okCollab) (pluginRoot (some "/custom/root") demoPath)
      = ImportResult.ok okCollab ∧
    (process none demoPath (importOk okCollab) "{}").output
      = (process (some "/custom/root") demoPath (importOk okCollab) "{}").output :=
  ⟨rfl, rfl,
   env_override_output_invariance none (some "/custom/root") demoPath "{}"
     (importOk okCollab) okCollab rfl rfl⟩

/-- C9: On the runtime-error path — any exception `e` raised by parsing,
rule loading or rule evaluation after a successful import — the
`systemMessage` value is the fixed text `"Hookify error: "` followed by
the exception text, and is therefore never the bare exception text. -/
theorem error_message_carries_hookify_tag {R : Type} (env : Option String)
    (p : String) (importOf : String → ImportResult R) (stdin : String)
    (C : Collaborators R) (e : Exc)
    (hI : importOf (pluginRoot env p) = ImportResult.ok C)
    (hErr : C.parse stdin = Except.error e ∨
      ∃ input_data : Json, C.parse stdin = Except.ok input_data ∧
        (C.load_rules "prompt" = Except.error e ∨
         ∃ rules : R, C.load_rules "prompt" = Except.ok rules ∧
           C.evaluate_rules rules input_data = Except.error e)) :
    ∃ msg : String,
      (process env p importOf stdin).output
        = Json.obj [("systemMessage", Json.str msg)] ∧
      msg = "Hookify error: " ++ e.text ∧
      msg ≠ e.text := by
  refine ⟨"Hookify error: " ++ e.text, ?_, rfl, hookify_msg_ne_text e.text⟩
  rcases hErr with hP | ⟨input_data, hP, hL | ⟨rules, hL, hE⟩⟩
  · simp [process, main, hI, hP, errorOutput]
  · simp [process, main, hI, hP, hL, errorOutput]
  · simp [process, main, hI, hP, hL, hE, errorOutput]

/-- Witness for C9: a raising evaluator at a concrete input. -/
theorem error_message_carries_hookify_tag_witness :
    (importOk evalFailCollab) (pluginRoot none demoPath)
      = ImportResult.ok evalFailCollab ∧
    evalFailCollab.parse "{}" = Except.ok (Json.obj []) ∧
    evalFailCollab.load_rules "prompt" = Except.ok () ∧
    evalFailCollab.evaluate_rules () (Json.obj []) = Except.error ⟨"bad rule"⟩ ∧
    (∃ msg : String,
      (process none demoPath (importOk evalFailCollab) "{}").output
        = Json.obj [("systemMessage", Json.str msg)] ∧
      msg = "Hookify error: " ++ Exc.text ⟨"bad rule"⟩ ∧
      msg ≠ Exc.text ⟨"bad rule"⟩) :=
  ⟨rfl, rfl, rfl, rfl,
   error_message_carries_hookify_tag none demoPath (importOk evalFailCollab)
     "{}" evalFailCollab ⟨"bad rule"⟩ rfl
     (Or.inr ⟨Json.obj [], rfl, Or.inr ⟨(), rfl, rfl⟩⟩)⟩

/-- C10: A `CLAUDE_PLUGIN_ROOT` set to the empty string is treated
exactly as if the variable were unset: the plugin root is the
script-derived fallback, identical to the unset case. -/
theorem empty_env_treated_as_unset (p : String) :
    pluginRoot (some "") p = pluginRoot none p ∧
    pluginRoot (some "") p = dirname (dirname p) := by
  have h : ("" : String).isEmpty = true := rfl
  constructor <;> simp [pluginRoot, h]

end Hookify
